import Mathlib

/-!
Shallow embedding of `debugger.py` (xv6-ai-debugger).

The program orchestrates two subprocesses (a QEMU emulator and a GDB
controller) through pexpect-style `expect`/`sendline` interaction, captures
crash evidence in one of two modes (kernel / user), submits the evidence to a
remote analysis service with bounded retry, and unconditionally tears both
subprocesses down in a `finally` block.

External nondeterminism (what each `expect` call observes, whether each HTTP
attempt succeeds) is supplied by environment records.  Each embedded function
returns the list of observable events it performs (sends, sleeps, HTTP posts,
analysis calls, file writes, terminations) together with an `Except` value
mirroring Python exception flow: `Except.error` is a raised, not-yet-caught
exception, and `Except.ok` is normal return.
-/

namespace XvDbg

/-- Which subprocess a stream operation addresses. -/
inductive Proc
  | gdb
  | qemu
deriving DecidableEq, Repr

/-- Python exceptions that the script can raise: `pexpect.TIMEOUT`,
`pexpect.EOF`, and `Exception(msg)` / other exceptions carrying a message. -/
inductive PyExn
  | timeout
  | eof
  | exn (msg : String)
deriving DecidableEq, Repr

/-- Outcome of one pexpect `expect` call, supplied by the environment:
a pattern matched (with its index, the `before` text and the `after` text),
the call timed out (with the `before` text), or the stream closed (EOF). -/
inductive ERes
  | matched (idx : Nat) (before after : String)
  | timedOut (before : String)
  | closed
deriving DecidableEq, Repr

/-- Observable events of a session. -/
inductive Ev
  | sendLine (p : Proc) (s : String)
  | sendRaw (p : Proc) (s : String)
  | sleepMs (n : Nat)
  | httpPost (attempt : Nat)
  | analysisCall (mode : String) (payload : String)
  | assembled (doc : String)
  | patchWrite (file : String) (content : String)
  | terminate (p : Proc) (forced : Bool)
  | noCrash
  | caughtMonitor
  | handled
deriving DecidableEq, Repr

/-- Sequencing for the trace-and-exception semantics: emit `tr`, then if `x`
is a raised exception propagate it, otherwise continue with `k`. -/
def seqE {α β : Type} (tr : List Ev) (x : Except PyExn α)
    (k : α → List Ev × Except PyExn β) : List Ev × Except PyExn β :=
  match x with
  | .error err => (tr, .error err)
  | .ok a => (tr ++ (k a).1, (k a).2)

/-- Python `try`/`except Exception` (or a bare `except`): every modelled
exception is caught by the handler. -/
def catchAll {α : Type} (x : List Ev × Except PyExn α)
    (h : PyExn → List Ev × Except PyExn α) : List Ev × Except PyExn α :=
  match x.2 with
  | .error err => (x.1 ++ (h err).1, (h err).2)
  | .ok _ => x

/-- Semantics of one pexpect `expect` call.  `tIdx` is the index of
`pexpect.TIMEOUT` in the pattern list when it is present (a timeout then
returns that index instead of raising), `eIdx` likewise for `pexpect.EOF`.
Returns `(matched index, before text, after text)`. -/
def expectFull (r : ERes) (tIdx eIdx : Option Nat) :
    Except PyExn (Nat × String × String) :=
  match r with
  | .matched i b a => .ok (i, b, a)
  | .timedOut b =>
    match tIdx with
    | some k => .ok (k, b, "")
    | none => .error .timeout
  | .closed =>
    match eIdx with
    | some k => .ok (k, "", "")
    | none => .error .eof

/-- Does `needle` occur (contiguously) at some position of the list? -/
def pyInAux (needle : List Char) : List Char → Bool
  | [] => needle.isEmpty
  | c :: cs => needle.isPrefixOf (c :: cs) || pyInAux needle cs

/-- Python `needle in haystack` on strings. -/
def pyIn (needle hay : String) : Bool :=
  pyInAux needle.data hay.data

/-- Python regex `\s` character class. -/
def isPySpace (c : Char) : Bool :=
  c == ' ' || c == '\t' || c == '\n' || c == '\r' || c == '\x0b' || c == '\x0c'

/-- Python `str.strip()`: remove the whitespace characters from both ends. -/
def pyStrip (s : String) : String :=
  ⟨((s.data.dropWhile isPySpace).reverse.dropWhile isPySpace).reverse⟩

/-- Split a character list at every newline, keeping empty pieces, as
Python `split('\n')` does. -/
def splitNlChars : List Char → List (List Char)
  | [] => [[]]
  | c :: cs =>
    if c = '\n' then [] :: splitNlChars cs
    else
      match splitNlChars cs with
      | [] => [[c]]
      | l :: ls => (c :: l) :: ls

/-- Python `s.split('\n')`. -/
def pySplitNl (s : String) : List String :=
  (splitNlChars s.data).map fun l => ⟨l⟩

/-- Character class `[0-9a-f]` from the `saved rip` pattern. -/
def isHexLowerDigit (c : Char) : Bool :=
  c.isDigit || (decide ('a' ≤ c) && decide (c ≤ 'f'))

/-- Character class `[0-9a-fA-Fx]` from the `RIP:` pattern. -/
def isRipChar (c : Char) : Bool :=
  c.isDigit || (decide ('a' ≤ c) && decide (c ≤ 'f')) ||
    (decide ('A' ≤ c) && decide (c ≤ 'F')) || c == 'x'

/-- Attempt to match `saved rip = (0x[0-9a-f]+)` at the head of `cs`;
on success return the captured group (including the `0x`). -/
def savedRipAt (cs : List Char) : Option (List Char) :=
  if ("saved rip = 0x".data).isPrefixOf cs then
    let ds := (cs.drop 14).takeWhile isHexLowerDigit
    if ds.isEmpty then none else some ("0x".data ++ ds)
  else none

/-- Leftmost match of the `saved rip` pattern, as `re.search` finds it. -/
def searchSavedRip : List Char → Option (List Char)
  | [] => none
  | c :: cs =>
    match savedRipAt (c :: cs) with
    | some g => some g
    | none => searchSavedRip cs

/-- Embedding of `re.search(r'saved rip = (0x[0-9a-f]+)', frame_info)`,
returning the captured group. -/
def savedRipOf (s : String) : Option String :=
  (searchSavedRip s.data).map fun g => String.mk g

/-- Attempt to match `RIP:\s+([0-9a-fA-Fx]+)` at the head of `cs`;
on success return the captured group. -/
def ripAt (cs : List Char) : Option (List Char) :=
  if ("RIP:".data).isPrefixOf cs then
    let rest := cs.drop 4
    let ws := rest.takeWhile isPySpace
    if ws.isEmpty then none
    else
      let ds := (rest.drop ws.length).takeWhile isRipChar
      if ds.isEmpty then none else some ds
  else none

/-- Leftmost match of the `RIP:` pattern, as `re.search` finds it. -/
def searchRip : List Char → Option (List Char)
  | [] => none
  | c :: cs =>
    match ripAt (c :: cs) with
    | some g => some g
    | none => searchRip cs

/-- Embedding of `re.search(r'RIP:\s+([0-9a-fA-Fx]+)', crash_report)`,
returning the captured group. -/
def ripOf (s : String) : Option String :=
  (searchRip s.data).map fun g => String.mk g

/-- Embedding of the normalisation `if not rip_addr.startswith('0x'):
rip_addr = '0x' + rip_addr` (Python `startswith` is a character-prefix
test, rendered here on the underlying character lists). -/
def normalizeRip (a : String) : String :=
  if ("0x".data).isPrefixOf a.data then a else "0x" ++ a

/-- Embedding of the line filter applied to the `bt` / `info registers`
captures: keep lines whose strip is non-empty and differs from the echoed
command. -/
def cleanLines (ls : List String) (cmd : String) : List String :=
  ls.filter fun line => pyStrip line != "" && pyStrip line != cmd

/-- Embedding of
`"\n".join([l for l in raw.split('\n') if l.strip() and not l.strip() == cmd]).strip()`. -/
def cleanCapture (raw : String) (cmd : String) : String :=
  pyStrip (String.intercalate "\n" (cleanLines (pySplitNl raw) cmd))

/-- Embedding of the patch post-processing: remove the Markdown code-fence
markers from the suggested patch and strip surrounding whitespace. -/
def transformPatch (p : String) : String :=
  pyStrip ((p.replace "```diff" "").replace "```" "")

/-- Embedding of the kernel-mode `debug_data` f-string (fields already
processed exactly as the script processes them before interpolation). -/
def assembleKernelEvidence (bt reg fr sym src dis : String) : String :=
  "BACKTRACE:\n" ++ bt ++ "\n\nREGISTERS:\n" ++ reg ++
    "\n\nSAVED RETURN ADDRESS INFO:\n" ++ fr ++
    "\n\nCALLING FUNCTION:\n" ++ sym ++
    "\n\nSOURCE CODE AT CALLING SITE:\n" ++ src ++
    "\n\nDISASSEMBLY OF CALLING FUNCTION:\n" ++ dis ++ "\n"

/-- Embedding of the user-mode `enhanced_report` f-string. -/
def assembleUserEvidence (block rip src sym dis : String) : String :=
  block ++ "\n\nSOURCE CODE AT FAULT (RIP: " ++ rip ++ "):\n" ++ src ++
    "\n\nFUNCTION SYMBOL:\n" ++ sym ++
    "\n\nDISASSEMBLY:\n" ++ dis ++ "\n"

/-- Kernel-mode evidence assembly as the script actually performs it on the
raw captures: blank-line and echo stripping for the backtrace and register
captures, a plain `strip()` for the remaining four captures. -/
def assembleKernelFromRaw (btRaw regRaw frRaw symRaw srcRaw disRaw : String) : String :=
  assembleKernelEvidence (cleanCapture btRaw "bt") (cleanCapture regRaw "info registers")
    (pyStrip frRaw) (pyStrip symRaw) (pyStrip srcRaw) (pyStrip disRaw)

/-- Evidence assembly following the spec's words instead of the code: the
spec says blank lines and the echoed command line are stripped from every
raw capture.  Used only to compare against `assembleKernelFromRaw`. -/
def assembleKernelFromRawSpec (btRaw regRaw frRaw symRaw srcRaw disRaw : String) : String :=
  assembleKernelEvidence (cleanCapture btRaw "bt") (cleanCapture regRaw "info registers")
    (cleanCapture frRaw "info frame 1") (cleanCapture symRaw "info symbol")
    (cleanCapture srcRaw "list") (cleanCapture disRaw "disassemble")

/-- Python `d[k]` on a string dict: value or `KeyError`. -/
def pyGetItem (d : List (String × String)) (k : String) : Except PyExn String :=
  match List.lookup k d with
  | some v => .ok v
  | none => .error (.exn ("KeyError: " ++ k))

/-- Outcome of one attempt of the analysis-service loop: the POST returned
HTTP 200 and the nested JSON payload parsed to the dict `d`; the POST
returned a non-200 status; or the attempt raised an exception (transport
error or unparseable body), which the loop catches. -/
inductive AttemptOutcome
  | success (d : List (String × String))
  | nonSuccess (code : Nat)
  | raised (msg : String)
deriving DecidableEq, Repr

/-- The fixed retry bound `max_retries = 5`. -/
def maxRetries : Nat := 5

/-- Embedding of the retry loop of `get_gemini_analysis`.  `fuel` is the
number of remaining loop iterations (`maxRetries - attempt`); falling off the
loop returns the fixed exhaustion dict.  A non-200 status sleeps
`2**attempt` seconds (even on the final attempt) and continues; a raised
exception sleeps and continues only while `attempt < max_retries - 1`, and on
the final attempt returns the error dict naming the attempt count. -/
def getGeminiAnalysisLoop (genv : Nat → AttemptOutcome) :
    Nat → Nat → List Ev × List (String × String)
  | 0, _ => ([], [("error", "Exhausted all API retries.")])
  | fuel + 1, attempt =>
    match genv attempt with
    | .success d => ([.httpPost attempt], d)
    | .nonSuccess _ =>
      let r := getGeminiAnalysisLoop genv fuel (attempt + 1)
      (.httpPost attempt :: .sleepMs (1000 * 2 ^ attempt) :: r.1, r.2)
    | .raised m =>
      if attempt < maxRetries - 1 then
        let r := getGeminiAnalysisLoop genv fuel (attempt + 1)
        (.httpPost attempt :: .sleepMs (1000 * 2 ^ attempt) :: r.1, r.2)
      else
        ([.httpPost attempt],
          [("error", "Failed to get analysis after 5 attempts: " ++ m)])

/-- Embedding of `get_gemini_analysis`: run the retry loop from attempt 0.
The result dict is either the parsed analysis or the single-field error
variant; no exception escapes the loop. -/
def getGeminiAnalysis (genv : Nat → AttemptOutcome) :
    List Ev × List (String × String) :=
  getGeminiAnalysisLoop genv maxRetries 0

/-- Property names of the kernel-mode response schema (source lines 57-68). -/
def kernelSchemaProperties : List String :=
  ["rootCause", "faultyFunction", "faultyLine", "severity", "analysisSummary",
    "suggestedFixPatch"]

/-- Required fields of the kernel-mode response schema. -/
def kernelSchemaRequired : List String :=
  ["rootCause", "faultyFunction", "faultyLine", "severity", "analysisSummary",
    "suggestedFixPatch"]

/-- Property names of the user-mode response schema (source lines 106-118). -/
def userSchemaProperties : List String :=
  ["rootCause", "trapType", "faultyProgram", "faultyLine", "explanation",
    "severity", "suggestedFix"]

/-- Required fields of the user-mode response schema (source line 117). -/
def userSchemaRequired : List String :=
  ["rootCause", "trapType", "faultyLine", "explanation", "suggestedFix"]

/-- The kernel-mode attribute list of the spec's AnalysisReport data model
(root cause, faulty function, faulty line, severity, summary, patch). -/
def kernelListedAttributes : List String :=
  ["rootCause", "faultyFunction", "faultyLine", "severity", "analysisSummary",
    "suggestedFixPatch"]

/-- The user-mode attribute list of the spec's AnalysisReport data model
(root cause, trap-type explanation, faulty line, explanation, severity, fix). -/
def userListedAttributes : List String :=
  ["rootCause", "trapType", "faultyLine", "explanation", "severity",
    "suggestedFix"]

/-- Environment of one kernel-mode capture run: the outcome of each
`expect` call of `run_kernel_debugger`, in program order, plus the
per-attempt outcomes of the analysis-service call. -/
structure KernelEnv where
  eBreak : ERes
  eCont : ERes
  eShell : ERes
  eBp : ERes
  ePrompt : ERes
  eBt : ERes
  eReg : ERes
  eFrame : ERes
  eSym : ERes
  eList : ERes
  eDis : ERes
  eFrame0 : ERes
  genv : Nat → AttemptOutcome

/-- Embedding of the kernel-mode post-analysis block: if the dict has an
`error` key only a message is printed; otherwise the listed fields are read
(a missing one raises `KeyError`) and the processed patch is written to
`suggested_fix.patch`. -/
def kernelPost (d : List (String × String)) : List Ev × Except PyExn Unit :=
  if (List.lookup "error" d).isSome then ([], .ok ())
  else
    seqE [] (pyGetItem d "rootCause") fun _ =>
    seqE [] (pyGetItem d "faultyFunction") fun _ =>
    seqE [] (pyGetItem d "faultyLine") fun _ =>
    seqE [] (pyGetItem d "severity") fun _ =>
    seqE [] (pyGetItem d "analysisSummary") fun _ =>
    seqE [] (pyGetItem d "suggestedFixPatch") fun patch =>
    ([.patchWrite "suggested_fix.patch" (transformPatch patch)], .ok ())

/-- Assembly of the kernel evidence document followed by the analysis call
and the post-analysis block. -/
def kernelFinish (genv : Nat → AttemptOutcome) (doc : String) :
    List Ev × Except PyExn Unit :=
  seqE ([.assembled doc, .analysisCall "kernel" doc] ++ (getGeminiAnalysis genv).1)
    (.ok () : Except PyExn Unit) fun _ =>
  kernelPost (getGeminiAnalysis genv).2

/-- Embedding of `run_kernel_debugger`: arm the breakpoint, boot to the
shell, trigger the fault, wait for the breakpoint notification (timeout is
index 2 of the pattern list and raises a fatal capture exception), then
capture backtrace, registers, frame info and the caller context, assemble
the evidence and call the analysis service. -/
def runKernelDebugger (env : KernelEnv) : List Ev × Except PyExn Unit :=
  seqE [.sendLine .gdb "break vectors.S:56"] (expectFull env.eBreak none none) fun _ =>
  seqE [.sendLine .gdb "c"] (expectFull env.eCont none none) fun _ =>
  seqE [] (expectFull env.eShell none none) fun _ =>
  seqE [.sleepMs 500, .sendLine .qemu "trap_test", .sleepMs 500]
    (.ok () : Except PyExn Unit) fun _ =>
  seqE [] (expectFull env.eBp (some 2) none) fun bp =>
  if bp.1 = 2 then
    ([], .error (.exn "trap_test did not trigger expected page fault"))
  else
    seqE [] (expectFull env.ePrompt none none) fun _ =>
    seqE [.sendLine .gdb "bt"] (expectFull env.eBt (some 2) (some 1)) fun btr =>
    if btr.1 = 0 then
      seqE [.sendLine .gdb "info registers"] (expectFull env.eReg (some 2) (some 1)) fun rr =>
      if rr.1 = 0 then
        seqE [.sendLine .gdb "info frame 1"] (expectFull env.eFrame none none) fun fr =>
        match savedRipOf (pyStrip fr.2.1) with
        | some rip =>
          seqE [.sendLine .gdb ("info symbol " ++ rip)] (expectFull env.eSym none none) fun sr =>
          seqE [.sendLine .gdb ("list *" ++ rip)] (expectFull env.eList none none) fun lr =>
          seqE [.sendLine .gdb ("disassemble " ++ rip)] (expectFull env.eDis none none) fun dr =>
          seqE [.sendLine .gdb "frame 0"] (expectFull env.eFrame0 none none) fun _ =>
          kernelFinish env.genv
            (assembleKernelEvidence (cleanCapture btr.2.1 "bt")
              (cleanCapture rr.2.1 "info registers") (pyStrip fr.2.1)
              (pyStrip sr.2.1) (pyStrip lr.2.1) (pyStrip dr.2.1))
        | none =>
          seqE [.sendLine .gdb "frame 0"] (expectFull env.eFrame0 none none) fun _ =>
          kernelFinish env.genv
            (assembleKernelEvidence (cleanCapture btr.2.1 "bt")
              (cleanCapture rr.2.1 "info registers") (pyStrip fr.2.1)
              "Unknown" "Could not extract saved RIP" "N/A")
      else ([], .error (.exn "Failed to capture registers"))
    else ([], .error (.exn "Failed to capture backtrace"))

/-- Environment of one user-mode capture run: the outcome of each `expect`
call of `run_user_debugger`, in program order.  The two swallowed prompt
waits (after the interrupt and after the confirmation loop) are inside
bare `try`/`except: pass` blocks and have no observable effect, so they
carry no environment field. -/
structure UserEnv where
  uCont : ERes
  uShell : ERes
  uMarker : ERes
  uEnd : ERes
  uConf0 : ERes
  uConf1 : ERes
  uList : ERes
  uDis : ERes
  uSym : ERes
  genv : Nat → AttemptOutcome

/-- Embedding of the user-mode post-analysis block. -/
def userPost (d : List (String × String)) : List Ev × Except PyExn Unit :=
  if (List.lookup "error" d).isSome then ([], .ok ())
  else
    seqE [] (pyGetItem d "rootCause") fun _ =>
    seqE [] (pyGetItem d "explanation") fun _ =>
    seqE [] (pyGetItem d "suggestedFix") fun fixv =>
    ([.patchWrite "user_space_fix.patch" (transformPatch fixv)], .ok ())

/-- The source-listing / disassembly / symbol-lookup triad at the extracted
fault address, followed by evidence assembly and the analysis call. -/
def userIntrospect (env : UserEnv) (crashReport rip : String) :
    List Ev × Except PyExn Unit :=
  seqE [.sendLine .gdb ("list *" ++ rip)] (expectFull env.uList none none) fun lr =>
  seqE [.sendLine .gdb ("disassemble " ++ rip)] (expectFull env.uDis none none) fun dr =>
  seqE [.sendLine .gdb ("info symbol " ++ rip)] (expectFull env.uSym none none) fun sr =>
  seqE ([.assembled (assembleUserEvidence crashReport rip (pyStrip lr.2.1) (pyStrip sr.2.1)
        (pyStrip dr.2.1)),
      .analysisCall "user"
        (assembleUserEvidence crashReport rip (pyStrip lr.2.1) (pyStrip sr.2.1)
          (pyStrip dr.2.1))] ++
      (getGeminiAnalysis env.genv).1)
    (.ok () : Except PyExn Unit) fun _ =>
  userPost (getGeminiAnalysis env.genv).2

/-- Embedding of the two-iteration confirmation-prompt loop of the
symbol-table switch (`file _user_crash`): indices 0 and 1 are the two
confirmation questions (answered with `y`), index 2 is the plain prompt
(break), index 3 is a tolerated timeout (warn and break). -/
def userConfLoop (env : UserEnv) (rest : List Ev × Except PyExn Unit) :
    List Ev × Except PyExn Unit :=
  seqE [] (expectFull env.uConf0 (some 3) none) fun c0 =>
  if c0.1 = 0 ∨ c0.1 = 1 then
    seqE [.sendLine .gdb "y"] (.ok () : Except PyExn Unit) fun _ =>
    seqE [] (expectFull env.uConf1 (some 3) none) fun c1 =>
    if c1.1 = 0 ∨ c1.1 = 1 then
      seqE [.sendLine .gdb "y"] (.ok () : Except PyExn Unit) fun _ => rest
    else rest
  else rest

/-- Embedding of the crash-report monitoring block (the body of the `try`
at source line 351): wait for the begin marker (timeout is index 1 of the
pattern list and is the no-crash outcome), read to the end marker (timeout
raises), extract and normalise the RIP address, switch symbol tables and
introspect, or fall back to analysing the raw report block. -/
def userMonitor (env : UserEnv) : List Ev × Except PyExn Unit :=
  seqE [] (expectFull env.uMarker (some 1) none) fun mk =>
  if mk.1 = 0 then
    seqE [] (expectFull env.uEnd none none) fun er =>
    match ripOf ("=== XV6 USER CRASH REPORT ===" ++ er.2.1 ++ "=== END REPORT ===") with
    | some rip0 =>
      seqE [.sleepMs 500, .sendRaw .gdb "\x03", .sendLine .gdb "file _user_crash"]
        (.ok () : Except PyExn Unit) fun _ =>
      userConfLoop env
        (userIntrospect env
          ("=== XV6 USER CRASH REPORT ===" ++ er.2.1 ++ "=== END REPORT ===")
          (normalizeRip rip0))
    | none =>
      seqE ([.analysisCall "user"
          ("=== XV6 USER CRASH REPORT ===" ++ er.2.1 ++ "=== END REPORT ===")] ++
          (getGeminiAnalysis env.genv).1)
        (.ok () : Except PyExn Unit) fun _ =>
      userPost (getGeminiAnalysis env.genv).2
  else ([.noCrash], .ok ())

/-- Embedding of `run_user_debugger`: boot to the shell, launch the user
program, then monitor for a crash report inside a `try` whose
`except Exception` swallows every exception raised by the monitoring
block. -/
def runUserDebugger (env : UserEnv) : List Ev × Except PyExn Unit :=
  seqE [.sendLine .gdb "c"] (expectFull env.uCont none none) fun _ =>
  seqE [] (expectFull env.uShell none none) fun _ =>
  seqE [.sleepMs 500, .sendLine .qemu "user_crash"]
    (.ok () : Except PyExn Unit) fun _ =>
  catchAll (userMonitor env) (fun _ => ([.caughtMonitor], .ok ()))

/-- Environment of a whole `run_debugger` session: build outcome, the
handshake `expect` outcomes, the selected mode with its mode environment,
the liveness of the two handles at teardown time, and the outcome of the
`Quit anyway?` wait during graceful shutdown. -/
structure DebuggerEnv where
  buildOk : Bool
  dFirst : ERes
  dPend : ERes
  dConn : ERes
  dPrompt2 : ERes
  dPag1 : ERes
  dPag2 : ERes
  kmode : Bool
  kenv : KernelEnv
  uenv : UserEnv
  gdbAlive : Bool
  qemuAlive : Bool
  dQuit : ERes

/-- Remote attach, refusal check, pagination setup, then the mode-selected
capture run. -/
def connectAndRun (env : DebuggerEnv) : List Ev × Except PyExn Unit :=
  seqE [.sendLine .gdb "target remote localhost:26000"] (expectFull env.dConn none none) fun cr =>
  if pyIn "Connection refused" cr.2.1 || pyIn "Connection refused" cr.2.2 then
    ([], .error (.exn "GDB failed to connect to QEMU: Connection Refused."))
  else
    seqE [] (expectFull env.dPrompt2 none none) fun _ =>
    seqE [.sendLine .gdb "set pagination off"] (expectFull env.dPag1 none none) fun _ =>
    seqE [.sendLine .gdb "set height 0"] (expectFull env.dPag2 none none) fun _ =>
    if env.kmode then runKernelDebugger env.kenv else runUserDebugger env.uenv

/-- The body of `run_debugger`'s `try` block: first GDB prompt (answering a
pending-breakpoint question when its text is seen in the buffer), then
connect and run. -/
def tryBody (env : DebuggerEnv) : List Ev × Except PyExn Unit :=
  seqE [] (expectFull env.dFirst none none) fun fr =>
  if pyIn "Breakpoint pending" fr.2.1 then
    seqE [.sendLine .gdb "y"] (expectFull env.dPend none none) fun _ => connectAndRun env
  else connectAndRun env

/-- Whether graceful shutdown of the debugger fell back to forced
termination: it does exactly when the `Quit anyway?` wait did not match. -/
def quitForced : ERes → Bool
  | .matched _ _ _ => false
  | _ => true

/-- Embedding of the `finally` block: if the debugger handle is alive, try
graceful shutdown (`q`, wait for the confirmation question with a 2 second
bound, answer `y`, close) and fall back to forced close if any step of that
fails; if the emulator handle is alive, force-close it. -/
def teardown (gdbAlive qemuAlive : Bool) (dQuit : ERes) : List Ev :=
  (if gdbAlive then
    match dQuit with
    | .matched _ _ _ => [.sendLine .gdb "q", .sendLine .gdb "y", .terminate .gdb false]
    | _ => [.sendLine .gdb "q", .terminate .gdb true]
  else []) ++
  (if qemuAlive then [.terminate .qemu true] else [])

/-- Embedding of `run_debugger`: a failed build returns before any spawn;
otherwise the `try` body runs, every raised exception is handled by one of
the three `except` clauses, and the `finally` teardown runs on every exit
route. -/
def runDebugger (env : DebuggerEnv) : List Ev × Except PyExn Unit :=
  if env.buildOk then
    ((catchAll (tryBody env) (fun _ => ([.handled], .ok ()))).1 ++
        teardown env.gdbAlive env.qemuAlive env.dQuit,
      (catchAll (tryBody env) (fun _ => ([.handled], .ok ()))).2)
  else ([], .ok ())

/-- Event classifier: is this a termination of either handle? -/
def Ev.isTerminate : Ev → Bool
  | .terminate _ _ => true
  | _ => false

/-- Event classifier: is this a termination of handle `p`? -/
def isTermOf : Proc → Ev → Bool
  | .gdb, .terminate .gdb _ => true
  | .qemu, .terminate .qemu _ => true
  | _, _ => false

/-- Event classifier: is this an invocation of the analysis service client? -/
def Ev.isAnalysisCall : Ev → Bool
  | .analysisCall _ _ => true
  | _ => false

/-- Event classifier: is this an HTTP request attempt? -/
def Ev.isHttpPost : Ev → Bool
  | .httpPost _ => true
  | _ => false

/-- Event classifier: is this the assembly of an evidence document? -/
def Ev.isAssembled : Ev → Bool
  | .assembled _ => true
  | _ => false

/-- Event classifier: is this a patch-file write? -/
def Ev.isPatchWrite : Ev → Bool
  | .patchWrite _ _ => true
  | _ => false

/-- The sleep durations (in milliseconds) of a trace, in order. -/
def sleepsOf (tr : List Ev) : List Nat :=
  tr.filterMap fun ev =>
    match ev with
    | .sleepMs n => some n
    | _ => none

/-- Analysis-service environment in which every attempt returns a non-200
HTTP status. -/
def allNon : Nat → AttemptOutcome := fun _ => .nonSuccess 500

/-- Analysis-service environment in which every attempt succeeds with a
complete user-mode dict. -/
def genvOkUser : Nat → AttemptOutcome := fun _ =>
  .success
    [("rootCause", "division by zero"), ("trapType", "t0"), ("faultyLine", "14"),
      ("explanation", "e"), ("suggestedFix", "fix")]

/-- Kernel environment whose breakpoint-notification wait times out. -/
def kenvBpTimeout : KernelEnv where
  eBreak := .matched 0 "" ""
  eCont := .matched 0 "" ""
  eShell := .matched 0 "" ""
  eBp := .timedOut "no breakpoint"
  ePrompt := .matched 0 "" ""
  eBt := .matched 0 "" ""
  eReg := .matched 0 "" ""
  eFrame := .matched 0 "" ""
  eSym := .matched 0 "" ""
  eList := .matched 0 "" ""
  eDis := .matched 0 "" ""
  eFrame0 := .matched 0 "" ""
  genv := allNon

/-- Kernel environment whose breakpoint notification matches but whose
backtrace wait then times out. -/
def kenvBtTimeout : KernelEnv :=
  { kenvBpTimeout with eBp := .matched 0 "" "", eBt := .timedOut "late" }

/-- User environment with a detected crash report whose first
symbol-switch confirmation wait times out (soft path). -/
def uenvConfTimeout : UserEnv where
  uCont := .matched 0 "" ""
  uShell := .matched 0 "" ""
  uMarker := .matched 0 "" ""
  uEnd := .matched 0 "\nTrap 0\nRIP: 0x1a2b\n" ""
  uConf0 := .timedOut ""
  uConf1 := .matched 2 "" ""
  uList := .matched 0 "10  int y = 0;" ""
  uDis := .matched 0 "idiv" ""
  uSym := .matched 0 "main + 10" ""
  genv := genvOkUser

/-- User environment whose begin-of-report wait times out. -/
def uenvMarkerTimeout : UserEnv :=
  { uenvConfTimeout with uMarker := .timedOut "" }

/-- User environment whose end-of-report wait times out. -/
def uenvEndTimeout : UserEnv :=
  { uenvConfTimeout with uEnd := .timedOut "" }

/-- User environment with a recoverable crash report and a direct prompt in
the confirmation loop. -/
def uenvRip : UserEnv :=
  { uenvConfTimeout with uConf0 := .matched 2 "" "" }

/-- A full session environment: successful build, clean handshake, kernel
mode, both handles alive at teardown, graceful quit confirmed. -/
def denvBase : DebuggerEnv where
  buildOk := true
  dFirst := .matched 0 "" ""
  dPend := .matched 0 "" ""
  dConn := .matched 0 "" "Remote debugging using localhost"
  dPrompt2 := .matched 0 "" ""
  dPag1 := .matched 0 "" ""
  dPag2 := .matched 0 "" ""
  kmode := true
  kenv := kenvBpTimeout
  uenv := uenvConfTimeout
  gdbAlive := true
  qemuAlive := true
  dQuit := .matched 0 "" ""

/-- A full session environment running the user mode whose end-of-report
wait times out. -/
def denvUser : DebuggerEnv :=
  { denvBase with kmode := false, uenv := uenvEndTimeout }

/-! Structural lemmas about the trace semantics. -/

theorem seqE_no {α β : Type} (q : Ev → Bool) {tr : List Ev} {x : Except PyExn α}
    {k : α → List Ev × Except PyExn β} (h1 : tr.filter q = [])
    (h2 : ∀ a, ((k a).1).filter q = []) :
    ((seqE tr x k).1).filter q = [] := by
  cases x <;> simp [seqE, List.filter_append, h1, h2]

theorem catchAll_no {α : Type} (q : Ev → Bool) {x : List Ev × Except PyExn α}
    {h : PyExn → List Ev × Except PyExn α} (h1 : (x.1).filter q = [])
    (h2 : ∀ er, ((h er).1).filter q = []) :
    ((catchAll x h).1).filter q = [] := by
  rcases x with ⟨tr, r⟩
  cases r with
  | error er =>
    show ((tr ++ (h er).1).filter q) = []
    rw [List.filter_append, h1, h2 er]
    rfl
  | ok a => exact h1

/-! The analysis-service client never terminates a subprocess, and obeys
the retry bound with exponentially growing sleeps. -/

theorem getGeminiAnalysisLoop_noTerm (genv : Nat → AttemptOutcome) :
    ∀ fuel attempt,
      ((getGeminiAnalysisLoop genv fuel attempt).1).filter Ev.isTerminate = [] := by
  intro fuel
  induction fuel with
  | zero => intro attempt; simp [getGeminiAnalysisLoop]
  | succ n ih =>
    intro attempt
    cases h : genv attempt with
    | success d => simp [getGeminiAnalysisLoop, h, Ev.isTerminate]
    | nonSuccess c => simp [getGeminiAnalysisLoop, h, Ev.isTerminate, ih]
    | raised m =>
      by_cases hlt : attempt < maxRetries - 1 <;>
        simp [getGeminiAnalysisLoop, h, hlt, Ev.isTerminate, ih]

theorem getGeminiAnalysis_noTerm (genv : Nat → AttemptOutcome) :
    ((getGeminiAnalysis genv).1).filter Ev.isTerminate = [] :=
  getGeminiAnalysisLoop_noTerm genv maxRetries 0

theorem getGeminiAnalysisLoop_bounds (genv : Nat → AttemptOutcome) :
    ∀ fuel attempt,
      (((getGeminiAnalysisLoop genv fuel attempt).1).filter Ev.isHttpPost).length ≤ fuel ∧
      sleepsOf ((getGeminiAnalysisLoop genv fuel attempt).1) <+:
        (List.range' attempt fuel).map fun k => 1000 * 2 ^ k := by
  intro fuel
  induction fuel with
  | zero =>
    intro attempt
    simp [getGeminiAnalysisLoop, sleepsOf]
  | succ n ih =>
    intro attempt
    cases h : genv attempt with
    | success d =>
      constructor
      · simp [getGeminiAnalysisLoop, h, Ev.isHttpPost]
      · simp [getGeminiAnalysisLoop, h, sleepsOf]
    | nonSuccess c =>
      constructor
      · have := (ih (attempt + 1)).1
        simp only [getGeminiAnalysisLoop, h]
        simp [Ev.isHttpPost]
        omega
      · have hp := (ih (attempt + 1)).2
        simp only [getGeminiAnalysisLoop, h]
        simp only [sleepsOf, List.filterMap_cons]
        rw [List.range'_succ, List.map_cons, List.cons_prefix_cons]
        exact ⟨rfl, hp⟩
    | raised m =>
      by_cases hlt : attempt < maxRetries - 1
      · constructor
        · have := (ih (attempt + 1)).1
          simp only [getGeminiAnalysisLoop, h, if_pos hlt]
          simp [Ev.isHttpPost]
          omega
        · have hp := (ih (attempt + 1)).2
          simp only [getGeminiAnalysisLoop, h, if_pos hlt]
          simp only [sleepsOf, List.filterMap_cons]
          rw [List.range'_succ, List.map_cons, List.cons_prefix_cons]
          exact ⟨rfl, hp⟩
      · constructor
        · simp [getGeminiAnalysisLoop, h, if_neg hlt, Ev.isHttpPost]
        · simp [getGeminiAnalysisLoop, h, if_neg hlt, sleepsOf]

theorem getGeminiAnalysisLoop_exhaust (genv : Nat → AttemptOutcome) :
    ∀ fuel attempt, attempt + fuel = 5 →
      (∀ k, attempt ≤ k → k < 5 → ∀ d, genv k ≠ .success d) →
      (fuel = 0 → ∀ c, genv 4 ≠ .raised c) →
      ∃ msg, (getGeminiAnalysisLoop genv fuel attempt).2 = [("error", msg)] ∧
        ((∀ c, genv 4 ≠ .raised c) → msg = "Exhausted all API retries.") ∧
        (∀ c, genv 4 = .raised c →
          msg = "Failed to get analysis after 5 attempts: " ++ c) := by
  intro fuel
  induction fuel with
  | zero =>
    intro attempt _ _ h0
    refine ⟨"Exhausted all API retries.", by simp [getGeminiAnalysisLoop], fun _ => rfl, ?_⟩
    intro c hc
    exact absurd hc (h0 rfl c)
  | succ n ih =>
    intro attempt hsum hns _
    cases h : genv attempt with
    | success d =>
      exact absurd h (hns attempt le_rfl (by omega) d)
    | nonSuccess c =>
      have h4 : attempt = 4 → ∀ c2, genv 4 ≠ .raised c2 := by
        intro h4' c2 hc2
        rw [h4'] at h
        rw [h] at hc2
        exact AttemptOutcome.noConfusion hc2
      obtain ⟨msg, hm, he, hr⟩ := ih (attempt + 1) (by omega)
        (fun k hk1 hk2 d => hns k (by omega) hk2 d)
        (fun hn0 => h4 (by omega))
      exact ⟨msg, by simp [getGeminiAnalysisLoop, h, hm], he, hr⟩
    | raised m =>
      by_cases hlt : attempt < maxRetries - 1
      · obtain ⟨msg, hm, he, hr⟩ := ih (attempt + 1) (by omega)
          (fun k hk1 hk2 d => hns k (by omega) hk2 d)
          (fun hn0 => by simp [maxRetries] at hlt; omega)
        exact ⟨msg, by simp [getGeminiAnalysisLoop, h, if_pos hlt, hm], he, hr⟩
      · have ha4 : attempt = 4 := by simp [maxRetries] at hlt; omega
        refine ⟨"Failed to get analysis after 5 attempts: " ++ m,
          by simp [getGeminiAnalysisLoop, h, if_neg hlt], ?_, ?_⟩
        · intro hno
          rw [ha4] at h
          exact absurd h (hno m)
        · intro c hc
          rw [ha4] at h
          rw [h] at hc
          cases hc
          rfl

/-! Claim theorems for the analysis-service client. -/

/-- C5.  For every call to `get_gemini_analysis`, at most 5 request
attempts are issued, and the sleep before retry number j (0-indexed) is
1000·2^j milliseconds — a fixed base delay that doubles with each retry, so
the delay before attempt k (1-indexed, k ≥ 2) is (1/2)·2^(k−1) seconds,
proportional to 2^(k−1) times a fixed base. -/
theorem getGeminiAnalysis_retry_bound (genv : Nat → AttemptOutcome) :
    (((getGeminiAnalysis genv).1).filter Ev.isHttpPost).length ≤ 5 ∧
    sleepsOf ((getGeminiAnalysis genv).1) <+: [1000, 2000, 4000, 8000, 16000] := by
  have h := getGeminiAnalysisLoop_bounds genv maxRetries 0
  refine ⟨h.1, ?_⟩
  have hp := h.2
  norm_num [List.range'] at hp
  exact hp

/-- C6 counterexample.  When every attempt returns a non-success HTTP
status, `get_gemini_analysis` returns the error variant whose message is
the fixed text `Exhausted all API retries.`, which does not name the
attempt count (the digit 5 does not occur in it), contradicting the claim
that the message names the attempt count in exactly this situation. -/
theorem getGeminiAnalysis_allNon_message :
    (getGeminiAnalysis allNon).2 = [("error", "Exhausted all API retries.")] ∧
    pyIn "5" "Exhausted all API retries." = false := by
  constructor
  · rfl
  · decide

/-- C6 amended.  Exhausting all 5 attempts always yields the single-field
error variant of the report (never an exception): the message names the
attempt count when the final attempt failed with a caught exception, but
when no attempt raised (every attempt was a non-success status) the message
is the fixed text `Exhausted all API retries.` without the count. -/
theorem getGeminiAnalysis_exhaustion_error_variant (genv : Nat → AttemptOutcome)
    (hns : ∀ k, k < 5 → ∀ d, genv k ≠ .success d) :
    ∃ msg, (getGeminiAnalysis genv).2 = [("error", msg)] ∧
      ((∀ c, genv 4 ≠ .raised c) → msg = "Exhausted all API retries.") ∧
      (∀ c, genv 4 = .raised c →
        msg = "Failed to get analysis after 5 attempts: " ++ c) :=
  getGeminiAnalysisLoop_exhaust genv maxRetries 0 rfl
    (fun k _ hk2 d => hns k hk2 d) (by intro h; cases h)

/-- Witness for C6's amended theorem at the all-non-200 environment. -/
theorem getGeminiAnalysis_exhaustion_error_variant_witness :
    (getGeminiAnalysis allNon).2 = [("error", "Exhausted all API retries.")] := by
  obtain ⟨msg, hm, he, _⟩ :=
    getGeminiAnalysis_exhaustion_error_variant allNon (by intro k _ d h; cases h)
  rw [he (by intro c h; cases h)] at hm
  exact hm

/-! No code path of the session body terminates a subprocess handle: the
only terminate events of a whole run come from the `finally` teardown. -/

theorem kernelPost_noTerm (d : List (String × String)) :
    ((kernelPost d).1).filter Ev.isTerminate = [] := by
  unfold kernelPost
  split
  · simp
  · exact seqE_no _ (by simp) fun _ =>
      seqE_no _ (by simp) fun _ =>
      seqE_no _ (by simp) fun _ =>
      seqE_no _ (by simp) fun _ =>
      seqE_no _ (by simp) fun _ =>
      seqE_no _ (by simp) fun _ => by simp [Ev.isTerminate]

theorem kernelFinish_noTerm (genv : Nat → AttemptOutcome) (doc : String) :
    ((kernelFinish genv doc).1).filter Ev.isTerminate = [] := by
  unfold kernelFinish
  refine seqE_no _ ?_ fun _ => kernelPost_noTerm _
  rw [List.filter_append]
  simp [Ev.isTerminate, getGeminiAnalysis_noTerm]

theorem runKernelDebugger_noTerm (env : KernelEnv) :
    ((runKernelDebugger env).1).filter Ev.isTerminate = [] := by
  unfold runKernelDebugger
  refine seqE_no _ (by simp [Ev.isTerminate]) fun _ => ?_
  refine seqE_no _ (by simp [Ev.isTerminate]) fun _ => ?_
  refine seqE_no _ (by simp) fun _ => ?_
  refine seqE_no _ (by simp [Ev.isTerminate]) fun _ => ?_
  refine seqE_no _ (by simp) fun bp => ?_
  split
  · simp
  · refine seqE_no _ (by simp) fun _ => ?_
    refine seqE_no _ (by simp [Ev.isTerminate]) fun btr => ?_
    split
    · refine seqE_no _ (by simp [Ev.isTerminate]) fun rr => ?_
      split
      · refine seqE_no _ (by simp [Ev.isTerminate]) fun fr => ?_
        split
        · refine seqE_no _ (by simp [Ev.isTerminate]) fun sr => ?_
          refine seqE_no _ (by simp [Ev.isTerminate]) fun lr => ?_
          refine seqE_no _ (by simp [Ev.isTerminate]) fun dr => ?_
          refine seqE_no _ (by simp [Ev.isTerminate]) fun _ => ?_
          exact kernelFinish_noTerm _ _
        · refine seqE_no _ (by simp [Ev.isTerminate]) fun _ => ?_
          exact kernelFinish_noTerm _ _
      · simp
    · simp

theorem userPost_noTerm (d : List (String × String)) :
    ((userPost d).1).filter Ev.isTerminate = [] := by
  unfold userPost
  split
  · simp
  · exact seqE_no _ (by simp) fun _ =>
      seqE_no _ (by simp) fun _ =>
      seqE_no _ (by simp) fun _ => by simp [Ev.isTerminate]

theorem userIntrospect_noTerm (env : UserEnv) (cr rip : String) :
    ((userIntrospect env cr rip).1).filter Ev.isTerminate = [] := by
  unfold userIntrospect
  refine seqE_no _ (by simp [Ev.isTerminate]) fun lr => ?_
  refine seqE_no _ (by simp [Ev.isTerminate]) fun dr => ?_
  refine seqE_no _ (by simp [Ev.isTerminate]) fun sr => ?_
  refine seqE_no _ ?_ fun _ => userPost_noTerm _
  rw [List.filter_append]
  simp [Ev.isTerminate, getGeminiAnalysis_noTerm]

theorem userConfLoop_noTerm (env : UserEnv) (rest : List Ev × Except PyExn Unit)
    (hr : (rest.1).filter Ev.isTerminate = []) :
    ((userConfLoop env rest).1).filter Ev.isTerminate = [] := by
  unfold userConfLoop
  refine seqE_no _ (by simp) fun c0 => ?_
  split
  · refine seqE_no _ (by simp [Ev.isTerminate]) fun _ => ?_
    refine seqE_no _ (by simp) fun c1 => ?_
    split
    · exact seqE_no _ (by simp [Ev.isTerminate]) fun _ => hr
    · exact hr
  · exact hr

theorem userMonitor_noTerm (env : UserEnv) :
    ((userMonitor env).1).filter Ev.isTerminate = [] := by
  unfold userMonitor
  refine seqE_no _ (by simp) fun mk => ?_
  split
  · refine seqE_no _ (by simp) fun er => ?_
    split
    · refine seqE_no _ (by simp [Ev.isTerminate]) fun _ => ?_
      exact userConfLoop_noTerm _ _ (userIntrospect_noTerm _ _ _)
    · refine seqE_no _ ?_ fun _ => userPost_noTerm _
      rw [List.filter_append]
      simp [Ev.isTerminate, getGeminiAnalysis_noTerm]
  · simp [Ev.isTerminate]

theorem runUserDebugger_noTerm (env : UserEnv) :
    ((runUserDebugger env).1).filter Ev.isTerminate = [] := by
  unfold runUserDebugger
  refine seqE_no _ (by simp [Ev.isTerminate]) fun _ => ?_
  refine seqE_no _ (by simp) fun _ => ?_
  refine seqE_no _ (by simp [Ev.isTerminate]) fun _ => ?_
  exact catchAll_no _ (userMonitor_noTerm env) fun er => by simp [Ev.isTerminate]

theorem connectAndRun_noTerm (env : DebuggerEnv) :
    ((connectAndRun env).1).filter Ev.isTerminate = [] := by
  unfold connectAndRun
  refine seqE_no _ (by simp [Ev.isTerminate]) fun cr => ?_
  split
  · simp
  · refine seqE_no _ (by simp) fun _ => ?_
    refine seqE_no _ (by simp [Ev.isTerminate]) fun _ => ?_
    refine seqE_no _ (by simp [Ev.isTerminate]) fun _ => ?_
    split
    · exact runKernelDebugger_noTerm _
    · exact runUserDebugger_noTerm _

theorem tryBody_noTerm (env : DebuggerEnv) :
    ((tryBody env).1).filter Ev.isTerminate = [] := by
  unfold tryBody
  refine seqE_no _ (by simp) fun fr => ?_
  split
  · exact seqE_no _ (by simp [Ev.isTerminate]) fun _ => connectAndRun_noTerm _
  · exact connectAndRun_noTerm _

theorem runDebuggerBody_noTerm (env : DebuggerEnv) :
    ((catchAll (tryBody env) fun _ => ([.handled], .ok ())).1).filter
      Ev.isTerminate = [] :=
  catchAll_no _ (tryBody_noTerm env) fun _ => by simp [Ev.isTerminate]

theorem isTermOf_imp_isTerminate (p : Proc) (e : Ev) (h : isTermOf p e = true) :
    Ev.isTerminate e = true := by
  cases p <;> cases e <;> simp_all [isTermOf, Ev.isTerminate]

theorem filter_eq_nil_of_imp {q q' : Ev → Bool} {tr : List Ev}
    (himp : ∀ e, q' e = true → q e = true) (h : tr.filter q = []) :
    tr.filter q' = [] := by
  rw [List.filter_eq_nil_iff] at h ⊢
  intro a ha
  exact fun hq' => h a ha (himp a hq')

theorem runDebugger_fst (env : DebuggerEnv) (hb : env.buildOk = true) :
    (runDebugger env).1 =
      (catchAll (tryBody env) fun _ => ([.handled], .ok ())).1 ++
        teardown env.gdbAlive env.qemuAlive env.dQuit := by
  simp [runDebugger, hb]

theorem teardown_filter_gdb (qa : Bool) (r : ERes) :
    (teardown true qa r).filter (isTermOf .gdb) =
      [.terminate .gdb (quitForced r)] := by
  cases r <;> cases qa <;> simp [teardown, quitForced, isTermOf]

theorem teardown_filter_qemu (r : ERes) :
    (teardown true true r).filter (isTermOf .qemu) = [.terminate .qemu true] := by
  cases r <;> simp [teardown, isTermOf]

/-- C1.  On every exit route of a session whose build succeeded and whose
two subprocess handles are alive when teardown starts (success, handled
fatal error, or an exception raised at any state-machine step — the
environment quantifies over all of these), the teardown phase terminates
the debugger handle exactly once and the emulator handle exactly once,
attempts the graceful quit command first, and the debugger close is
non-forced exactly when the graceful `Quit anyway?` exchange matched. -/
theorem runDebugger_teardown_once (env : DebuggerEnv)
    (hb : env.buildOk = true) (hg : env.gdbAlive = true) (hq : env.qemuAlive = true) :
    ((runDebugger env).1).filter (isTermOf .gdb) =
      [.terminate .gdb (quitForced env.dQuit)] ∧
    ((runDebugger env).1).filter (isTermOf .qemu) = [.terminate .qemu true] ∧
    Ev.sendLine .gdb "q" ∈ (runDebugger env).1 ∧
    (quitForced env.dQuit = false ↔ ∃ i b a, env.dQuit = .matched i b a) := by
  have hbody := runDebuggerBody_noTerm env
  rw [runDebugger_fst env hb, hg, hq]
  refine ⟨?_, ?_, ?_, ?_⟩
  · rw [List.filter_append,
      filter_eq_nil_of_imp (fun e => isTermOf_imp_isTerminate .gdb e) hbody,
      List.nil_append]
    exact teardown_filter_gdb true env.dQuit
  · rw [List.filter_append,
      filter_eq_nil_of_imp (fun e => isTermOf_imp_isTerminate .qemu e) hbody,
      List.nil_append]
    exact teardown_filter_qemu env.dQuit
  · rw [List.mem_append]
    right
    cases env.dQuit <;> simp [teardown]
  · cases h : env.dQuit <;> simp [quitForced]

/-- Witness for C1 at a concrete full-session environment: the graceful
quit matched, so the debugger is closed once non-forced and the emulator is
closed once forced. -/
theorem runDebugger_teardown_once_witness :
    ((runDebugger denvBase).1).filter (isTermOf .gdb) = [.terminate .gdb false] ∧
    ((runDebugger denvBase).1).filter (isTermOf .qemu) = [.terminate .qemu true] ∧
    Ev.sendLine .gdb "q" ∈ (runDebugger denvBase).1 :=
  have h := runDebugger_teardown_once denvBase rfl rfl rfl
  ⟨h.1, h.2.1, h.2.2.1⟩

/-- C3.  In every kernel-mode session that reaches the fault trigger and
then sees no breakpoint notification within the 20-second wait (the
timeout entry of the pattern list), the capture fails with the fatal
exception, no analysis call and no HTTP request is ever issued, and no
evidence document is assembled. -/
theorem runKernelDebugger_bp_timeout_fatal (env : KernelEnv)
    (i1 : Nat) (b1 a1 : String) (i2 : Nat) (b2 a2 : String)
    (i3 : Nat) (b3 a3 : String) (tb : String)
    (h1 : env.eBreak = .matched i1 b1 a1)
    (h2 : env.eCont = .matched i2 b2 a2)
    (h3 : env.eShell = .matched i3 b3 a3)
    (h4 : env.eBp = .timedOut tb) :
    (runKernelDebugger env).2 =
      .error (.exn "trap_test did not trigger expected page fault") ∧
    ((runKernelDebugger env).1).filter Ev.isAnalysisCall = [] ∧
    ((runKernelDebugger env).1).filter Ev.isHttpPost = [] ∧
    ((runKernelDebugger env).1).filter Ev.isAssembled = [] := by
  unfold runKernelDebugger
  rw [h1, h2, h3, h4]
  simp [seqE, expectFull, Ev.isAnalysisCall, Ev.isHttpPost, Ev.isAssembled]

/-- Witness for C3 at a concrete kernel environment. -/
theorem runKernelDebugger_bp_timeout_fatal_witness :
    (runKernelDebugger kenvBpTimeout).2 =
      .error (.exn "trap_test did not trigger expected page fault") ∧
    ((runKernelDebugger kenvBpTimeout).1).filter Ev.isAnalysisCall = [] ∧
    ((runKernelDebugger kenvBpTimeout).1).filter Ev.isHttpPost = [] ∧
    ((runKernelDebugger kenvBpTimeout).1).filter Ev.isAssembled = [] :=
  runKernelDebugger_bp_timeout_fatal kenvBpTimeout 0 "" "" 0 "" "" 0 "" ""
    "no breakpoint" rfl rfl rfl rfl

/-- C4.  In every user-mode session where the begin-of-report marker does
not appear within the detection window (the timeout entry of the pattern
list), the session ends in the non-fatal no-crash-detected outcome: the
function returns normally and neither an analysis call nor an HTTP request
is ever issued. -/
theorem runUserDebugger_marker_timeout_noCrash (env : UserEnv)
    (i1 : Nat) (b1 a1 : String) (i2 : Nat) (b2 a2 : String) (tb : String)
    (h1 : env.uCont = .matched i1 b1 a1)
    (h2 : env.uShell = .matched i2 b2 a2)
    (h3 : env.uMarker = .timedOut tb) :
    (runUserDebugger env).2 = .ok () ∧
    Ev.noCrash ∈ (runUserDebugger env).1 ∧
    ((runUserDebugger env).1).filter Ev.isAnalysisCall = [] ∧
    ((runUserDebugger env).1).filter Ev.isHttpPost = [] := by
  unfold runUserDebugger userMonitor
  rw [h1, h2, h3]
  simp [seqE, catchAll, expectFull, Ev.isAnalysisCall, Ev.isHttpPost]

/-- Witness for C4 at a concrete user environment. -/
theorem runUserDebugger_marker_timeout_noCrash_witness :
    (runUserDebugger uenvMarkerTimeout).2 = .ok () ∧
    Ev.noCrash ∈ (runUserDebugger uenvMarkerTimeout).1 ∧
    ((runUserDebugger uenvMarkerTimeout).1).filter Ev.isAnalysisCall = [] ∧
    ((runUserDebugger uenvMarkerTimeout).1).filter Ev.isHttpPost = [] :=
  runUserDebugger_marker_timeout_noCrash uenvMarkerTimeout 0 "" "" 0 "" "" ""
    rfl rfl rfl

theorem catchAll_ok_unit (m : List Ev × Except PyExn Unit) :
    (catchAll m fun _ => ([.caughtMonitor], .ok ())).2 = .ok () := by
  rcases m with ⟨tr, r⟩
  cases r with
  | error er => rfl
  | ok a => cases a; rfl

theorem mem_catchAll_of_mem {e : Ev} {x : List Ev × Except PyExn Unit}
    {h : PyExn → List Ev × Except PyExn Unit} (hm : e ∈ x.1) :
    e ∈ (catchAll x h).1 := by
  rcases x with ⟨tr, r⟩
  cases r with
  | error er =>
    show e ∈ tr ++ (h er).1
    exact List.mem_append.mpr (Or.inl hm)
  | ok a => exact hm

/-- C10.  In every user-mode session where the begin-of-report marker is
matched but the end-of-report wait then times out, the raised timeout is
caught inside the monitoring `try`: the function returns normally, no
evidence is assembled, no analysis call or HTTP request is issued, no
patch file is written — and the surrounding session still runs its
teardown, terminating both live handles. -/
theorem runUserDebugger_end_timeout_caught (env : UserEnv) (denv : DebuggerEnv)
    (i1 : Nat) (b1 a1 : String) (i2 : Nat) (b2 a2 : String)
    (b3 a3 : String) (tb : String)
    (h1 : env.uCont = .matched i1 b1 a1)
    (h2 : env.uShell = .matched i2 b2 a2)
    (h3 : env.uMarker = .matched 0 b3 a3)
    (h4 : env.uEnd = .timedOut tb)
    (_hm : denv.kmode = false) (_hu : denv.uenv = env)
    (hb : denv.buildOk = true) (hg : denv.gdbAlive = true)
    (hq : denv.qemuAlive = true) :
    (runUserDebugger env).2 = .ok () ∧
    Ev.caughtMonitor ∈ (runUserDebugger env).1 ∧
    ((runUserDebugger env).1).filter Ev.isAnalysisCall = [] ∧
    ((runUserDebugger env).1).filter Ev.isAssembled = [] ∧
    ((runUserDebugger env).1).filter Ev.isPatchWrite = [] ∧
    ((runUserDebugger env).1).filter Ev.isHttpPost = [] ∧
    Ev.terminate .qemu true ∈ (runDebugger denv).1 ∧
    (∃ f, Ev.terminate .gdb f ∈ (runDebugger denv).1) := by
  have huser : runUserDebugger env =
      ([.sendLine .gdb "c", .sleepMs 500, .sendLine .qemu "user_crash",
        .caughtMonitor], .ok ()) := by
    unfold runUserDebugger userMonitor
    rw [h1, h2, h3, h4]
    simp [seqE, expectFull, catchAll]
  have hteard : (runDebugger denv).1 =
      (catchAll (tryBody denv) fun _ => ([.handled], .ok ())).1 ++
        teardown true true denv.dQuit := by
    rw [runDebugger_fst denv hb, hg, hq]
  refine ⟨?_, ?_, ?_, ?_, ?_, ?_, ?_, ?_⟩
  · rw [huser]
  · rw [huser]; simp
  · rw [huser]; simp [Ev.isAnalysisCall]
  · rw [huser]; simp [Ev.isAssembled]
  · rw [huser]; simp [Ev.isPatchWrite]
  · rw [huser]; simp [Ev.isHttpPost]
  · rw [hteard, List.mem_append]
    right
    cases denv.dQuit <;> simp [teardown]
  · cases hd : denv.dQuit with
    | matched i b a =>
      refine ⟨false, ?_⟩
      rw [hteard, List.mem_append]
      right
      simp [teardown, hd]
    | timedOut b =>
      refine ⟨true, ?_⟩
      rw [hteard, List.mem_append]
      right
      simp [teardown, hd]
    | closed =>
      refine ⟨true, ?_⟩
      rw [hteard, List.mem_append]
      right
      simp [teardown, hd]

/-- Witness for C10 at a concrete user environment and session environment. -/
theorem runUserDebugger_end_timeout_caught_witness :
    (runUserDebugger uenvEndTimeout).2 = .ok () ∧
    Ev.caughtMonitor ∈ (runUserDebugger uenvEndTimeout).1 ∧
    ((runUserDebugger uenvEndTimeout).1).filter Ev.isAnalysisCall = [] ∧
    ((runUserDebugger uenvEndTimeout).1).filter Ev.isAssembled = [] ∧
    ((runUserDebugger uenvEndTimeout).1).filter Ev.isPatchWrite = [] ∧
    ((runUserDebugger uenvEndTimeout).1).filter Ev.isHttpPost = [] ∧
    Ev.terminate .qemu true ∈ (runDebugger denvUser).1 :=
  have h := runUserDebugger_end_timeout_caught uenvEndTimeout denvUser 0 "" "" 0 "" ""
    "" "" "" rfl rfl rfl rfl rfl rfl rfl rfl rfl
  ⟨h.1, h.2.1, h.2.2.1, h.2.2.2.1, h.2.2.2.2.1, h.2.2.2.2.2.1, h.2.2.2.2.2.2.1⟩

/-- C2 amended.  The soft-warning treatment of post-notification timeouts
is not uniform across both modes: in kernel mode a timeout on the
post-breakpoint backtrace wait aborts the capture with an exception and
the analysis service is never reached, while in user mode a timeout on the
symbol-switch confirmation wait (after the crash-report notification was
matched) is soft — the capture continues all the way to the analysis
call and the session returns normally. -/
theorem timeout_policy_after_notification (ke : KernelEnv) (ue : UserEnv)
    (ki1 : Nat) (kb1 ka1 : String) (ki2 : Nat) (kb2 ka2 : String)
    (ki3 : Nat) (kb3 ka3 : String) (kb4 ka4 : String)
    (ki5 : Nat) (kb5 ka5 : String) (ktb : String)
    (ui1 : Nat) (ub1 ua1 : String) (ui2 : Nat) (ub2 ua2 : String)
    (ub3 ua3 : String) (ui4 : Nat) (ub4 ua4 : String) (utb : String)
    (ui7 : Nat) (ub7 ua7 : String) (ui8 : Nat) (ub8 ua8 : String)
    (ui9 : Nat) (ub9 ua9 : String) (r : String)
    (k1 : ke.eBreak = .matched ki1 kb1 ka1)
    (k2 : ke.eCont = .matched ki2 kb2 ka2)
    (k3 : ke.eShell = .matched ki3 kb3 ka3)
    (k4 : ke.eBp = .matched 0 kb4 ka4)
    (k5 : ke.ePrompt = .matched ki5 kb5 ka5)
    (k6 : ke.eBt = .timedOut ktb)
    (u1 : ue.uCont = .matched ui1 ub1 ua1)
    (u2 : ue.uShell = .matched ui2 ub2 ua2)
    (u3 : ue.uMarker = .matched 0 ub3 ua3)
    (u4 : ue.uEnd = .matched ui4 ub4 ua4)
    (u5 : ripOf ("=== XV6 USER CRASH REPORT ===" ++ ub4 ++ "=== END REPORT ===") =
      some r)
    (u6 : ue.uConf0 = .timedOut utb)
    (u7 : ue.uList = .matched ui7 ub7 ua7)
    (u8 : ue.uDis = .matched ui8 ub8 ua8)
    (u9 : ue.uSym = .matched ui9 ub9 ua9) :
    ((runKernelDebugger ke).2 = .error (.exn "Failed to capture backtrace") ∧
      ((runKernelDebugger ke).1).filter Ev.isAnalysisCall = []) ∧
    ((runUserDebugger ue).2 = .ok () ∧
      ∃ payload, Ev.analysisCall "user" payload ∈ (runUserDebugger ue).1) := by
  refine ⟨⟨?_, ?_⟩, ?_, ?_⟩
  · unfold runKernelDebugger
    rw [k1, k2, k3, k4, k5, k6]
    simp [seqE, expectFull]
  · unfold runKernelDebugger
    rw [k1, k2, k3, k4, k5, k6]
    simp [seqE, expectFull, Ev.isAnalysisCall]
  · unfold runUserDebugger
    rw [u1, u2]
    simp only [seqE, expectFull]
    exact catchAll_ok_unit _
  · refine ⟨assembleUserEvidence
      ("=== XV6 USER CRASH REPORT ===" ++ ub4 ++ "=== END REPORT ===")
      (normalizeRip r) (pyStrip ub7) (pyStrip ub9) (pyStrip ub8), ?_⟩
    unfold runUserDebugger
    rw [u1, u2]
    simp only [seqE, expectFull, List.mem_append, List.mem_cons]
    right; right; right
    apply mem_catchAll_of_mem
    unfold userMonitor userConfLoop userIntrospect
    rw [u3, u4, u6, u7, u8, u9]
    simp [seqE, expectFull, u5, List.mem_append, List.mem_cons]

/-- C2 counterexample.  A concrete kernel-mode run in which the breakpoint
notification has already been matched and the following backtrace-prompt
wait times out: contrary to the claim, the capture does not continue with
an empty field — it aborts with an exception and the analysis service is
never invoked. -/
theorem kernel_bt_timeout_aborts_capture :
    (runKernelDebugger kenvBtTimeout).2 =
      .error (.exn "Failed to capture backtrace") ∧
    ((runKernelDebugger kenvBtTimeout).1).filter Ev.isAnalysisCall = [] := by
  constructor
  · rfl
  · rfl

/-- Witness for C2's amended theorem at concrete environments: the kernel
run aborts while the user run (whose confirmation wait timed out after the
report was matched) still completes normally, with the analysis call
present in its trace. -/
theorem timeout_policy_after_notification_witness :
    ((runKernelDebugger kenvBtTimeout).2 =
        .error (.exn "Failed to capture backtrace") ∧
      ((runKernelDebugger kenvBtTimeout).1).filter Ev.isAnalysisCall = []) ∧
    (runUserDebugger uenvConfTimeout).2 = .ok () ∧
    ((runUserDebugger uenvConfTimeout).1).filter Ev.isAnalysisCall ≠ [] :=
  have h := timeout_policy_after_notification kenvBtTimeout uenvConfTimeout
    0 "" "" 0 "" "" 0 "" "" "" "" 0 "" "" "late"
    0 "" "" 0 "" "" "" "" 0 "\nTrap 0\nRIP: 0x1a2b\n" "" ""
    0 "10  int y = 0;" "" 0 "idiv" "" 0 "main + 10" "" "0x1a2b"
    rfl rfl rfl rfl rfl rfl rfl rfl rfl rfl rfl rfl rfl rfl rfl
  ⟨h.1, h.2.1, by
    obtain ⟨p, hp⟩ := h.2.2
    intro hnil
    have := List.filter_eq_nil_iff.mp hnil _ hp
    simp [Ev.isAnalysisCall] at this⟩

theorem normalizeRip_startsWith (a : String) :
    "0x".data <+: (normalizeRip a).data := by
  unfold normalizeRip
  split
  · next h => exact List.isPrefixOf_iff_prefix.mp h
  · rw [String.data_append]
    exact List.prefix_append _ _

/-- C7.  In every user-mode session where a crash-report block was captured
(both markers matched), the faulting address is the group extracted by the
fixed `RIP:` pattern, normalised to carry the `0x` prefix, and is the
address handed to the listing command; when extraction fails the analysis
service is still called, with exactly the raw crash-report block as
payload. -/
theorem user_rip_extraction_and_fallback (env : UserEnv)
    (i1 : Nat) (b1 a1 : String) (i2 : Nat) (b2 a2 : String)
    (b3 a3 : String) (i4 : Nat) (b4 a4 : String) (b5 a5 : String)
    (h1 : env.uCont = .matched i1 b1 a1)
    (h2 : env.uShell = .matched i2 b2 a2)
    (h3 : env.uMarker = .matched 0 b3 a3)
    (h4 : env.uEnd = .matched i4 b4 a4)
    (h5 : env.uConf0 = .matched 2 b5 a5) :
    (∀ r, ripOf ("=== XV6 USER CRASH REPORT ===" ++ b4 ++ "=== END REPORT ===") =
        some r →
      ("0x".data <+: (normalizeRip r).data ∧
        Ev.sendLine .gdb ("list *" ++ normalizeRip r) ∈ (runUserDebugger env).1)) ∧
    (ripOf ("=== XV6 USER CRASH REPORT ===" ++ b4 ++ "=== END REPORT ===") = none →
      Ev.analysisCall "user"
          ("=== XV6 USER CRASH REPORT ===" ++ b4 ++ "=== END REPORT ===") ∈
        (runUserDebugger env).1) := by
  constructor
  · intro r hr
    refine ⟨normalizeRip_startsWith r, ?_⟩
    unfold runUserDebugger
    rw [h1, h2]
    simp only [seqE, expectFull, List.mem_append, List.mem_cons]
    right; right; right
    apply mem_catchAll_of_mem
    unfold userMonitor userConfLoop userIntrospect
    rw [h3, h4, h5]
    simp [seqE, expectFull, hr, List.mem_append, List.mem_cons]
    right
    split <;> simp
  · intro hr
    unfold runUserDebugger
    rw [h1, h2]
    simp only [seqE, expectFull, List.mem_append, List.mem_cons]
    right; right; right
    apply mem_catchAll_of_mem
    unfold userMonitor
    rw [h3, h4]
    simp [seqE, expectFull, hr, List.mem_append, List.mem_cons]

/-- Witness for C7 at a concrete user environment whose report block
carries `RIP: 0x1a2b`. -/
theorem user_rip_extraction_and_fallback_witness :
    "0x".data <+: (normalizeRip "0x1a2b").data ∧
    Ev.sendLine .gdb ("list *" ++ normalizeRip "0x1a2b") ∈
      (runUserDebugger uenvRip).1 :=
  (user_rip_extraction_and_fallback uenvRip 0 "" "" 0 "" "" "" "" 0
    "\nTrap 0\nRIP: 0x1a2b\n" "" "" "" rfl rfl rfl rfl rfl).1 "0x1a2b" rfl

/-- C8 counterexample.  The spec lists severity among the user-mode
attributes that every non-error AnalysisReport must contain, and says the
schema's required-field set covers all listed attributes; but `severity`
is absent from the user-mode schema's required list, so a schema-valid
non-error user report need not contain it. -/
theorem user_severity_listed_but_not_required :
    "severity" ∈ userListedAttributes ∧ "severity" ∉ userSchemaRequired := by
  decide

/-- C8 amended.  The kernel-mode schema's required set covers every
kernel-listed attribute; the user-mode schema's required set covers every
user-listed attribute except severity, which is declared as an optional
property only; and every required user field is a declared property. -/
theorem schema_required_field_coverage :
    kernelListedAttributes.all (fun a => kernelSchemaRequired.contains a) = true ∧
    (userListedAttributes.filter fun a => a != "severity").all
      (fun a => userSchemaRequired.contains a) = true ∧
    userSchemaProperties.contains "severity" = true ∧
    userSchemaRequired.contains "severity" = false ∧
    userSchemaRequired.all (fun a => userSchemaProperties.contains a) = true := by
  decide

theorem data_prefix_append (s t : String) {l : List Char} (h : l <+: s.data) :
    l <+: (s ++ t).data := by
  rw [String.data_append]
  exact h.trans (List.prefix_append _ _)

/-- C9 counterexample.  Evidence assembly does not strip the echoed command
line (nor blank lines) from every raw capture: on a frame-info capture that
still carries its `info frame 1` echo, the assembled document differs from
the spec-described fully-cleaned assembly, and the echoed command line
survives verbatim in the output. -/
theorem assemble_kernel_keeps_frame_echo :
    assembleKernelFromRaw "bt\n#0 trap ()" "info registers\nrax 0"
        "info frame 1\nsaved rip = 0x1" "sym" "src" "dis" ≠
      assembleKernelFromRawSpec "bt\n#0 trap ()" "info registers\nrax 0"
        "info frame 1\nsaved rip = 0x1" "sym" "src" "dis" ∧
    pyIn "info frame 1"
      (assembleKernelFromRaw "bt\n#0 trap ()" "info registers\nrax 0"
        "info frame 1\nsaved rip = 0x1" "sym" "src" "dis") = true := by
  constructor
  · decide
  · decide

/-- C9 amended.  Evidence assembly is a pure function of the raw captures
(so repeated runs are byte-identical by construction); it strips blank
lines and the echoed command line from the backtrace and register captures
only — every line kept by the cleaning filter is non-blank and differs
from the echo — while the remaining captures are merely end-stripped, and
the fields are concatenated under labelled headers in a fixed order
beginning with the BACKTRACE header. -/
theorem assemble_kernel_normalization (bt reg fr sym src dis : String) :
    assembleKernelFromRaw bt reg fr sym src dis =
      assembleKernelFromRaw bt reg fr sym src dis ∧
    (∀ l2 ∈ cleanLines (pySplitNl bt) "bt", pyStrip l2 ≠ "" ∧ pyStrip l2 ≠ "bt") ∧
    (∀ l2 ∈ cleanLines (pySplitNl reg) "info registers",
      pyStrip l2 ≠ "" ∧ pyStrip l2 ≠ "info registers") ∧
    "BACKTRACE:".data <+: (assembleKernelFromRaw bt reg fr sym src dis).data := by
  refine ⟨rfl, ?_, ?_, ?_⟩
  · intro l2 hl
    have h := List.of_mem_filter hl
    simp only [Bool.and_eq_true, bne_iff_ne] at h
    exact h
  · intro l2 hl
    have h := List.of_mem_filter hl
    simp only [Bool.and_eq_true, bne_iff_ne] at h
    exact h
  · simp only [assembleKernelFromRaw, assembleKernelEvidence]
    repeat apply data_prefix_append
    decide

/-- Witness for C9's amended theorem at concrete captures. -/
theorem assemble_kernel_normalization_witness :
    (pyStrip "#0 trap ()" ≠ "" ∧ pyStrip "#0 trap ()" ≠ "bt") ∧
    "BACKTRACE:".data <+:
      (assembleKernelFromRaw "bt\n#0 trap ()" "r" "f" "s" "l" "d").data :=
  have h := assemble_kernel_normalization "bt\n#0 trap ()" "r" "f" "s" "l" "d"
  ⟨h.2.1 "#0 trap ()" (by decide), h.2.2.2⟩

end XvDbg
